import Mathlib

/-!
Shallow embedding of the query-routing and financial-calculation core of
`finance_agent.py` (finance-ai-agent repository), together with theorems
settling the specification claims about it.

Modelling conventions:
* Python floats are embedded as `ℚ` wherever the source only performs
  field arithmetic, comparisons and 2-decimal rounding; the single
  non-rational operation (`** (1 / period_years)` in the CAGR formula)
  is embedded as real `rpow`.
* `round(x, 2)` is embedded as `round2` below (nearest, half towards the
  larger value).  No claim in scope depends on tie-breaking behaviour at
  exact half-cent values.
* The process-wide random source (`random.uniform`, `random.choice`,
  `random.randint`) is embedded by passing each draw explicitly as an
  argument, mirroring one independent draw per call site.
* Python exceptions are embedded as an `Except PyExn` result; a Python
  function body with no failing operation is embedded as a total function.
* f-string presentation text that merely formats numbers into prose
  (the `interpretation` fields, the currency `recommendation` line) is
  not modelled; literal string constants and string joins are.
-/

namespace FinanceAgent

/-- Embedding of CPython exceptions that the modelled code paths can raise,
each carrying its `str(e)` message text. -/
inductive PyExn where
  | zeroDivisionError (msg : String)
  | typeError (msg : String)
  | nameError (msg : String)
deriving DecidableEq

/-- Message text of an exception, as Python `str(e)` produces it. -/
def PyExn.message : PyExn → String
  | .zeroDivisionError m => m
  | .typeError m => m
  | .nameError m => m

/-- Python `str.lower()` (ASCII case mapping suffices for the embedded data). -/
def lowerStr (s : String) : String := ⟨s.data.map Char.toLower⟩

/-- Python `str.upper()`. -/
def upperStr (s : String) : String := ⟨s.data.map Char.toUpper⟩

/-- Does the character list `hay` start with `needle`? -/
def startsWithL : List Char → List Char → Bool
  | [], _ => true
  | _ :: _, [] => false
  | a :: as, b :: bs => a == b && startsWithL as bs

/-- Does the character list `hay` contain `needle` as a contiguous run? -/
def containsL (needle : List Char) : List Char → Bool
  | [] => needle.isEmpty
  | c :: rest => startsWithL needle (c :: rest) || containsL needle rest

/-- Python substring test `needle in hay`. -/
def strContains (hay needle : String) : Bool := containsL needle.data hay.data

/-- Python `round()` on an exact value: round to the nearest integer,
ties to the even neighbour (round-half-even). -/
def pyRoundF {α : Type*} [LinearOrderedField α] [FloorRing α] (x : α) : ℤ :=
  if Int.fract x < 1 / 2 then ⌊x⌋
  else if 1 / 2 < Int.fract x then ⌊x⌋ + 1
  else if 2 ∣ ⌊x⌋ then ⌊x⌋ else ⌊x⌋ + 1

/-- Python `round(x, 2)`: round to two decimal places (ties to even). -/
def round2 (x : ℚ) : ℚ := (pyRoundF (100 * x) : ℚ) / 100

/-- Python `round(x, 2)` over the reals, for the one real-valued quantity
of the source (the CAGR). -/
noncomputable def round2R (x : ℝ) : ℝ := (pyRoundF (100 * x) : ℝ) / 100

/- ==================== CLASSIFIER (run_finance_agent, lines 434-470) ==================== -/

/-- Keyword list `stock_keywords` (finance_agent.py line 438). -/
def stock_keywords : List String :=
  ["stock", "price", "aapl", "googl", "tsla", "nvda", "msft", "amzn",
   "meta", "ticker", "shares", "equity", "analysis"]

/-- Keyword list `portfolio_keywords` (line 442). -/
def portfolio_keywords : List String :=
  ["portfolio", "investment", "returns", "risk", "diversification",
   "holdings", "asset", "allocation"]

/-- Keyword list `news_keywords` (line 446). -/
def news_keywords : List String :=
  ["news", "market", "trends", "sector", "update", "latest", "breaking"]

/-- Keyword list `currency_keywords` (line 449). -/
def currency_keywords : List String :=
  ["currency", "forex", "convert", "exchange rate", "eur", "gbp", "jpy",
   "usd", "international", "pkr", "rupees", "pakistan", "inr", "cny",
   "cad", "aud", "chf", "aed", "sar", "subtract", "add", "multiply"]

/-- Keyword list `math_keywords` (line 454). -/
def math_keywords : List String :=
  ["subtract", "add", "multiply", "divide", "percent", "%", "calculate"]

/-- Routing targets: the five specialist agents of the source plus the
triage (default) agent that handles queries matching no keyword set. -/
inductive Route where
  | stock
  | portfolio
  | news
  | currency
  | triage
deriving DecidableEq

/-- Python `any(keyword in query_lower for keyword in kws)`. -/
def matchesAny (kws : List String) (query_lower : String) : Bool :=
  kws.any fun k => strContains query_lower k

/-- The keyword classifier inside `run_finance_agent` (lines 434-470):
lower-case the query, then first match wins in the order
math, stock, portfolio, news, currency; no match falls through to triage.
The math branch targets the currency agent (source comment: math
operations use the currency agent for calculations with money). -/
def classify_route (query : String) : Route :=
  let query_lower := lowerStr query
  if matchesAny math_keywords query_lower then .currency
  else if matchesAny stock_keywords query_lower then .stock
  else if matchesAny portfolio_keywords query_lower then .portfolio
  else if matchesAny news_keywords query_lower then .news
  else if matchesAny currency_keywords query_lower then .currency
  else .triage

/- ==================== get_stock_price (lines 91-105) ==================== -/

/-- Result model `StockPrice` (lines 49-55). -/
structure StockPrice where
  symbol : String
  price : ℚ
  change : ℚ
  change_percent : ℚ
  timestamp : String
deriving DecidableEq

/-- `get_stock_price` (lines 91-105).  The two `random.uniform` draws
(`base_price` from [50,500], `change` from [-10,10]) and `datetime.now`
are passed explicitly.  The body performs no symbol validation; its only
partial operation is the division `change / base_price`, which in Python
raises `ZeroDivisionError` exactly when the drawn `base_price` is zero
(impossible for a draw from [50,500]). -/
def get_stock_price (symbol : String) (base_price change : ℚ)
    (now : String) : Except PyExn StockPrice :=
  if base_price = 0 then .error (.zeroDivisionError "float division by zero")
  else
    .ok { symbol := upperStr symbol
          price := round2 base_price
          change := round2 change
          change_percent := round2 (change / base_price * 100)
          timestamp := now }

/- ==================== get_market_news (lines 108-135) ==================== -/

/-- Result model `MarketNews` (lines 66-71). -/
structure MarketNews where
  headline : String
  source : String
  timestamp : String
  summary : String
deriving DecidableEq

/-- The `categories` dictionary (lines 114-119). -/
def news_categories : List (String × List String) :=
  [("stocks", ["Stock Market", "Equities", "Wall Street"]),
   ("crypto", ["Cryptocurrency", "Bitcoin", "DeFi"]),
   ("economy", ["Economy", "Inflation", "Federal Reserve"]),
   ("tech", ["Technology", "AI", "Semiconductors"])]

/-- The `sources` list (line 121). -/
def news_sources : List String :=
  ["Bloomberg", "Reuters", "CNBC", "Financial Times", "MarketWatch"]

/-- `categories.get(category, ["Market"])` (line 125): the pool of category
labels, falling back to the generic `["Market"]` for unknown categories. -/
def news_pool (category : String) : List String :=
  (news_categories.lookup category).getD ["Market"]

/-- `get_market_news` (lines 108-135).  `random.choice` is embedded by the
injected index streams `pickCat`/`pickSrc` (one draw per loop iteration,
reduced modulo the pool size so every injected stream denotes a valid
choice), and the randomised timestamp of line 131 by the stream `ts`.
Python `range(limit)` iterates `max(limit,0)` times, which is
`Int.toNat limit`. -/
def get_market_news (category : String) (limit : ℤ)
    (pickCat pickSrc : ℕ → ℕ) (ts : ℕ → String) : List MarketNews :=
  (List.range limit.toNat).map fun i =>
    let pool := news_pool category
    let category_name := pool.getD (pickCat i % pool.length) "Market"
    let source := news_sources.getD (pickSrc i % news_sources.length) "Bloomberg"
    { headline := category_name ++ " Update: Market analysis and insights " ++ toString (i + 1)
      source := source
      timestamp := ts i
      summary := "Analysis of " ++ lowerStr category_name ++
        " trends and market movements. Expert opinions on future direction." }

/- ==================== analyze_portfolio (lines 138-165) ==================== -/

/-- Input model `PortfolioHolding` (lines 82-86). -/
structure PortfolioHolding where
  symbol : String
  shares : ℚ
  average_cost : ℚ
deriving DecidableEq

/-- Result model `PortfolioSummary` (lines 58-63). -/
structure PortfolioSummary where
  total_value : ℚ
  total_gain_loss : ℚ
  gain_loss_percent : ℚ
  num_positions : ℕ
deriving DecidableEq

/-- The accumulated `total_cost` of the loop (lines 146-155):
`Σ shares_i * average_cost_i`. -/
def portfolio_total_cost (holdings : List PortfolioHolding) : ℚ :=
  (holdings.map fun h => h.shares * h.average_cost).sum

/-- The accumulated `total_value` (lines 146-155): `Σ shares_i * price_i`,
where `price i` is the fresh simulated quote price returned by the i-th
`get_stock_price` call (a new random draw per holding, injected here). -/
def portfolio_total_value (holdings : List PortfolioHolding) (price : ℕ → ℚ) : ℚ :=
  (holdings.enum.map fun p => p.2.shares * price p.1).sum

/-- `analyze_portfolio` (lines 138-165).  The per-holding current price is
the injected stream `price` (see `portfolio_total_value`).  The division
for `gain_loss_percent` is guarded by `total_cost > 0` (line 158). -/
def analyze_portfolio (holdings : List PortfolioHolding) (price : ℕ → ℚ) :
    PortfolioSummary :=
  let total_value := portfolio_total_value holdings price
  let total_cost := portfolio_total_cost holdings
  let total_gain_loss := total_value - total_cost
  let gain_loss_percent := if 0 < total_cost then total_gain_loss / total_cost * 100 else 0
  { total_value := round2 total_value
    total_gain_loss := round2 total_gain_loss
    gain_loss_percent := round2 gain_loss_percent
    num_positions := holdings.length }

/- ==================== calculate_returns (lines 168-195) ==================== -/

/-- Result envelope `FinancialAnalysis` (lines 74-79) for the one function
whose `value` is genuinely real-valued (the CAGR involves a rational
exponent).  The `interpretation` field is number-formatting prose and is
not modelled; the `recommendation` strings are literal constants. -/
structure FinancialAnalysisR where
  metric : String
  value : ℝ
  recommendation : String

/-- Recommendation text for `cagr > 10` (line 184). -/
def excellent_msg : String := "Excellent performance! Consider maintaining your strategy."

/-- Recommendation text for `cagr > 5` (line 186). -/
def good_msg : String := "Good performance. Continue monitoring and diversifying."

/-- Recommendation text of the final else branch (line 188). -/
def review_msg : String := "Review investment strategy for better returns."

/-- `total_return_percent` (lines 175-176):
`(final_value - initial_investment) / initial_investment * 100`. -/
def calculate_returns_total_return_percent (initial_investment final_value : ℚ) : ℚ :=
  (final_value - initial_investment) / initial_investment * 100

/-- The CAGR of line 179:
`((final_value / initial_investment) ** (1 / period_years) - 1) * 100`,
with `**` embedded as real `rpow`. -/
noncomputable def calculate_returns_cagr
    (initial_investment final_value period_years : ℚ) : ℝ :=
  (((final_value : ℝ) / (initial_investment : ℝ)) ^
      ((1 : ℝ) / (period_years : ℝ)) - 1) * 100

/-- The exception, if any, that the body of `calculate_returns` raises in
CPython.  Line 176 divides by `initial_investment` (`ZeroDivisionError`
when it is zero); line 179 divides by `period_years`; and when the base
`final_value / initial_investment` is negative and the exponent
`1 / period_years` is not an integer, `**` yields a `complex`, so the
comparison `cagr > 10` of line 183 raises `TypeError`.  (A rational
`1 / period_years` is an integer exactly when its denominator is 1.) -/
def calculate_returns_exn
    (initial_investment final_value period_years : ℚ) : Option PyExn :=
  if initial_investment = 0 then
    some (.zeroDivisionError "float division by zero")
  else if period_years = 0 then
    some (.zeroDivisionError "float division by zero")
  else if final_value / initial_investment < 0 ∧ (1 / period_years).den ≠ 1 then
    some (.typeError
      "\x27>\x27 not supported between instances of \x27complex\x27 and \x27int\x27")
  else none

/-- `calculate_returns` (lines 168-195): either the exception CPython
raises, or the returned `FinancialAnalysis` with `metric = "CAGR"`,
`value = round(cagr, 2)` and the tiered recommendation of lines 183-188
(`> 10` excellent, `elif > 5` good, else review). -/
noncomputable def calculate_returns
    (initial_investment final_value period_years : ℚ) :
    Except PyExn FinancialAnalysisR :=
  match calculate_returns_exn initial_investment final_value period_years with
  | some e => .error e
  | none =>
    let cagr := calculate_returns_cagr initial_investment final_value period_years
    .ok { metric := "CAGR"
          value := round2R cagr
          recommendation :=
            if 10 < cagr then excellent_msg
            else if 5 < cagr then good_msg
            else review_msg }

/- ==================== currency_converter (lines 198-232) ==================== -/

/-- Result envelope for `currency_converter`: `metric` and the rounded
`value` (lines 227-232); the `interpretation`/`recommendation` fields are
number-formatting prose and are not modelled. -/
structure CurrencyResult where
  metric : String
  value : ℚ
deriving DecidableEq

/-- The `exchange_rates` dictionary (lines 207-220), currency → USD rate. -/
def exchange_rates : List (String × ℚ) :=
  [("USD", 1), ("EUR", 0.92), ("GBP", 0.79), ("JPY", 149.50),
   ("CAD", 1.35), ("AUD", 1.52), ("CHF", 0.88), ("PKR", 278.50),
   ("INR", 83.12), ("CNY", 7.24), ("AED", 3.67), ("SAR", 3.75)]

/-- The currency codes present in the fixed table. -/
def currency_codes : List String := exchange_rates.map Prod.fst

/-- `exchange_rates.get(c.upper(), 1.0)` (lines 222-223): rate lookup with
silent fallback to `1.0` for unknown codes. -/
def rate_of (c : String) : ℚ := (exchange_rates.lookup (upperStr c)).getD 1

/-- `currency_converter` (lines 198-232):
`converted_amount = (amount / from_rate) * to_rate`, value rounded to two
decimals.  The body has no failure path: every table rate is nonzero and
unknown codes fall back to rate `1.0`. -/
def currency_converter (amount : ℚ) (from_currency to_currency : String) :
    CurrencyResult :=
  let from_rate := rate_of from_currency
  let to_rate := rate_of to_currency
  let converted_amount := amount / from_rate * to_rate
  { metric := "Currency Conversion", value := round2 converted_amount }

/- ==================== risk_assessment (lines 235-269) ==================== -/

/-- Result of `risk_assessment` (lines 264-269): `value` is the portfolio
beta; `level` is the `risk_level` string interpolated into the
interpretation line; `recommendations` is the list joined with `"; "`
into the recommendation field. -/
structure RiskResult where
  value : ℚ
  level : String
  recommendations : List String
deriving DecidableEq

/-- `risk_level` (lines 242-246): start at `"Low"`, overwrite with
`"High"` when `beta > 1.2 or volatility > 25`, else with `"Medium"` when
`beta > 0.8 or volatility > 15`. -/
def risk_level (portfolio_beta volatility : ℚ) : String :=
  if 1.2 < portfolio_beta ∨ 25 < volatility then "High"
  else if 0.8 < portfolio_beta ∨ 15 < volatility then "Medium"
  else "Low"

/-- The extra line appended when `diversification_score < 6` (lines 261-262). -/
def improve_diversification_msg : String := "Improve diversification across sectors"

/-- The `recommendations` list (lines 248-262): the tier-specific block
followed by the diversification line when `diversification_score < 6`. -/
def risk_recommendations (portfolio_beta volatility : ℚ)
    (diversification_score : ℤ) : List String :=
  (if risk_level portfolio_beta volatility = "High" then
      ["Consider reducing high-beta positions",
       "Add defensive stocks and bonds",
       "Increase cash position"]
    else if risk_level portfolio_beta volatility = "Medium" then
      ["Maintain current allocation",
       "Consider gradual rebalancing"]
    else
      ["Your portfolio is well-positioned",
       "Consider growth opportunities"]) ++
  (if diversification_score < 6 then [improve_diversification_msg] else [])

/-- `risk_assessment` (lines 235-269). -/
def risk_assessment (portfolio_beta volatility : ℚ)
    (diversification_score : ℤ) : RiskResult :=
  { value := portfolio_beta
    level := risk_level portfolio_beta volatility
    recommendations :=
      risk_recommendations portfolio_beta volatility diversification_score }

/- ======== get_api_key / run_finance_agent (lines 365-389, 415-490) ======== -/

/-- The environment variables the credential check reads. -/
structure Env where
  openai_api_key : Option String
  google_api_key : Option String

/-- `get_api_key` (lines 365-389).  `openrouter_key` is
`os.getenv("OPENAI_API_KEY", "")`.  When the first condition fails, the
`elif openai_key:` branch of line 378 evaluates the name `openai_key`,
which is defined nowhere in the module, so CPython raises `NameError`;
the remaining branches (OpenAI, Google, the no-key message) are
unreachable. -/
def get_api_key (env : Env) : Except PyExn (String × String) :=
  let openrouter_key := env.openai_api_key.getD ""
  if openrouter_key ≠ "" ∧ startsWithL "sk-or-v1-".data openrouter_key.data = true then
    .ok (openrouter_key, "openrouter")
  else
    .error (.nameError "name \x27openai_key\x27 is not defined")

/-- The configuration-error string of line 421, returned when
`get_api_key` yields a falsy key. -/
def no_api_key_msg : String :=
  "⚠️  Error: No API key configured. Please add OPENAI_API_KEY to .env file."

/-- The `except` handler of lines 480-490: map the exception text to one
of the four user-facing error strings by substring matching. -/
def handle_exception (error_msg : String) : String :=
  if strContains error_msg "401" || strContains error_msg "User not found" then
    "⚠️ API Error: Unable to connect to the service. This might be due to rate limiting on the free tier. Please wait a moment and try again."
  else if strContains error_msg "429" || strContains (lowerStr error_msg) "rate limit" then
    "⚠️ Rate Limit: Too many requests. Please wait a moment and try again."
  else if strContains error_msg "402" then
    "⚠️ Token Limit: Request too large. Please try a shorter query."
  else
    "⚠️ Error: " ++ error_msg

/-- `run_finance_agent` (lines 415-490).  The external LLM exchange
(`Runner.run` on the routed agent, line 474-476) is the injected
collaborator `llm`, which may itself fail with a transport exception.
Any exception escaping the `try` block — including the `NameError` from
`get_api_key` — is caught and mapped by `handle_exception`. -/
def run_finance_agent (env : Env) (query : String)
    (llm : Route → String → Except PyExn String) : String :=
  match get_api_key env with
  | .error e => handle_exception e.message
  | .ok (api_key, _provider) =>
    if api_key = "" then no_api_key_msg
    else
      match llm (classify_route query) query with
      | .ok final_output => final_output
      | .error e => handle_exception e.message

/- ==================== HELPER LEMMAS ==================== -/

section RoundingLemmas

variable {α : Type*} [LinearOrderedField α] [FloorRing α]

omit [FloorRing α] in
/-- An integer strictly below another integer plus one is at most it. -/
theorem int_le_of_cast_lt_add_one {a b : ℤ} (h : (a : α) < (b : α) + 1) :
    a ≤ b := by
  have h1 : (a : α) < ((b + 1 : ℤ) : α) := by push_cast; linarith
  exact Int.lt_add_one_iff.mp (by exact_mod_cast h1)

/-- Evaluation rule for `pyRoundF` away from ties: if `x` lies strictly
between `n - 1/2` and `n + 1/2`, it rounds to `n`. -/
theorem pyRoundF_eq_of {x : α} {n : ℤ} (h1 : (n : α) - 1 / 2 < x)
    (h2 : x < (n : α) + 1 / 2) : pyRoundF x = n := by
  have hfl : (⌊x⌋ : α) ≤ x := Int.floor_le x
  have hfu : x < (⌊x⌋ : α) + 1 := Int.lt_floor_add_one x
  unfold pyRoundF
  simp only [Int.fract]
  split_ifs with hlt hgt hdvd
  · have c5 : ((⌊x⌋ : ℤ) : α) < (n : α) + 1 := by linarith
    have c6 : ((n : ℤ) : α) < ((⌊x⌋ : ℤ) : α) + 1 := by linarith
    have h5 := int_le_of_cast_lt_add_one c5
    have h6 := int_le_of_cast_lt_add_one c6
    omega
  · have c5 : ((⌊x⌋ + 1 : ℤ) : α) < (n : α) + 1 := by push_cast; linarith
    have c6 : ((n : ℤ) : α) < ((⌊x⌋ + 1 : ℤ) : α) + 1 := by push_cast; linarith
    have h5 := int_le_of_cast_lt_add_one c5
    have h6 := int_le_of_cast_lt_add_one c6
    omega
  all_goals
    exfalso
    rw [not_lt] at hlt hgt
    have hx : x = (⌊x⌋ : α) + 1 / 2 := by linarith
    have c5 : ((⌊x⌋ + 1 : ℤ) : α) < (n : α) + 1 := by push_cast; linarith
    have c6 : ((n : ℤ) : α) < ((⌊x⌋ : ℤ) : α) + 1 := by linarith
    have h5 := int_le_of_cast_lt_add_one c5
    have h6 := int_le_of_cast_lt_add_one c6
    omega

/-- Round-half-even rounding moves a value by at most one half. -/
theorem abs_pyRoundF_sub (x : α) : |(pyRoundF x : α) - x| ≤ 1 / 2 := by
  have hfl : (⌊x⌋ : α) ≤ x := Int.floor_le x
  have hfu : x < (⌊x⌋ : α) + 1 := Int.lt_floor_add_one x
  unfold pyRoundF
  simp only [Int.fract]
  split_ifs with hlt hgt hdvd <;>
    [skip; rw [not_lt] at hlt; rw [not_lt] at hlt hgt; rw [not_lt] at hlt hgt] <;>
    rw [abs_le] <;> constructor <;> push_cast <;> linarith

end RoundingLemmas

/-- Evaluation rule for `round2` away from ties. -/
theorem round2_eq_of {x : ℚ} {n : ℤ} (h1 : (n : ℚ) - 1 / 2 < 100 * x)
    (h2 : 100 * x < (n : ℚ) + 1 / 2) : round2 x = (n : ℚ) / 100 := by
  unfold round2
  rw [pyRoundF_eq_of h1 h2]

/-- Rounding to two decimals moves a value by at most half a cent. -/
theorem abs_round2_sub (y : ℚ) : |round2 y - y| ≤ 1 / 200 := by
  have h := abs_pyRoundF_sub (α := ℚ) (100 * y)
  have e : round2 y - y = ((pyRoundF (100 * y) : ℚ) - 100 * y) / 100 := by
    unfold round2; ring
  rw [e, abs_div, abs_of_pos (by norm_num : (0:ℚ) < 100)]
  rw [div_le_div_iff₀ (by norm_num) (by norm_num)]
  linarith

/-- Evaluation rule for `round2R` away from ties. -/
theorem round2R_eq_of {x : ℝ} {n : ℤ} (h1 : (n : ℝ) - 1 / 2 < 100 * x)
    (h2 : 100 * x < (n : ℝ) + 1 / 2) : round2R x = (n : ℝ) / 100 := by
  unfold round2R
  rw [pyRoundF_eq_of h1 h2]

/-- Rounding zero gives zero. -/
theorem round2_zero : round2 0 = 0 := by
  have h := round2_eq_of (x := 0) (n := 0) (by norm_num) (by norm_num)
  simpa using h

/-- Every currency code in the fixed table is already upper-case. -/
theorem upper_code : ∀ c ∈ currency_codes, upperStr c = c := by decide

/-- Every rate in the fixed exchange-rate table is positive. -/
theorem rate_of_pos : ∀ c ∈ currency_codes, 0 < rate_of c := by
  intro c hc
  have hu : upperStr c = c := upper_code c hc
  unfold rate_of
  rw [hu]
  fin_cases hc <;> simp [exchange_rates, List.lookup] <;> norm_num

/- ==================== CLAIM THEOREMS ==================== -/

/-- C4: for every amount `x` and every ordered pair of currency codes
`(a, b)` in the fixed exchange-rate table, converting `x` from `a` to `b`
and the resulting value back from `b` to `a` recovers `x` within the
tolerance induced by the two roundings to 2 decimal places: each rounding
moves the value by at most half a cent, and the half-cent error of the
intermediate result is scaled by `rate a / rate b` on the way back, so
the round trip lands within `1/200 * (1 + rate_of a / rate_of b)` of `x`. -/
theorem claim_C4_roundtrip (x : ℚ) (a b : String)
    (ha : a ∈ currency_codes) (hb : b ∈ currency_codes) :
    |(currency_converter (currency_converter x a b).value b a).value - x| ≤
      1 / 200 * (1 + rate_of a / rate_of b) := by
  have hpa : 0 < rate_of a := rate_of_pos a ha
  have hpb : 0 < rate_of b := rate_of_pos b hb
  set ra := rate_of a with hra
  set rb := rate_of b with hrb
  show |round2 (round2 (x / ra * rb) / rb * ra) - x| ≤ 1 / 200 * (1 + ra / rb)
  set v1 := round2 (x / ra * rb) with hv1
  set v2 := round2 (v1 / rb * ra) with hv2
  have e1 : |v1 - x / ra * rb| ≤ 1 / 200 := abs_round2_sub (x / ra * rb)
  have e2 : |v2 - v1 / rb * ra| ≤ 1 / 200 := abs_round2_sub (v1 / rb * ra)
  have key : v1 / rb * ra - x = (v1 - x / ra * rb) * (ra / rb) := by
    field_simp
    ring
  have e3 : |v1 / rb * ra - x| ≤ 1 / 200 * (ra / rb) := by
    rw [key, abs_mul, abs_of_pos (div_pos hpa hpb)]
    exact mul_le_mul_of_nonneg_right e1 (le_of_lt (div_pos hpa hpb))
  calc |v2 - x| ≤ |v2 - v1 / rb * ra| + |v1 / rb * ra - x| := abs_sub_le _ _ _
    _ ≤ 1 / 200 + 1 / 200 * (ra / rb) := add_le_add e2 e3
    _ = 1 / 200 * (1 + ra / rb) := by ring

/-- C4 witness: the round-trip bound instantiated at 100 PKR → GBP → PKR. -/
theorem claim_C4_roundtrip_witness :
    ("PKR" ∈ currency_codes ∧ "GBP" ∈ currency_codes) ∧
      |(currency_converter (currency_converter 100 "PKR" "GBP").value
          "GBP" "PKR").value - 100| ≤
        1 / 200 * (1 + rate_of "PKR" / rate_of "GBP") :=
  ⟨⟨by decide, by decide⟩,
    claim_C4_roundtrip 100 "PKR" "GBP" (by decide) (by decide)⟩

/-- C6: risk tiers are decided exactly by the strict thresholds
`beta > 1.2 ∨ volatility > 25` (High, checked first), else
`beta > 0.8 ∨ volatility > 15` (Medium), else Low; the
improve-diversification line is appended exactly when
`diversification_score < 6`; and the two concrete instances:
(1.2, 20, 6) is Medium, (1.3, 10, 3) is High with the
improve-diversification line. -/
theorem claim_C6_risk :
    (∀ (beta vol : ℚ) (d : ℤ),
      ((risk_assessment beta vol d).level = "High" ↔ 1.2 < beta ∨ 25 < vol) ∧
      ((risk_assessment beta vol d).level = "Medium" ↔
        ¬(1.2 < beta ∨ 25 < vol) ∧ (0.8 < beta ∨ 15 < vol)) ∧
      ((risk_assessment beta vol d).level = "Low" ↔
        ¬(1.2 < beta ∨ 25 < vol) ∧ ¬(0.8 < beta ∨ 15 < vol)) ∧
      (improve_diversification_msg ∈ (risk_assessment beta vol d).recommendations ↔
        d < 6)) ∧
    (risk_assessment 1.2 20 6).level = "Medium" ∧
    (risk_assessment 1.3 10 3).level = "High" ∧
    improve_diversification_msg ∈ (risk_assessment 1.3 10 3).recommendations := by
  refine ⟨fun beta vol d => ⟨?_, ?_, ?_, ?_⟩, ?_, ?_, ?_⟩
  · unfold risk_assessment risk_level
    split_ifs with h1 h2 <;> simp_all
  · unfold risk_assessment risk_level
    split_ifs with h1 h2 <;> simp_all
  · unfold risk_assessment risk_level
    split_ifs with h1 h2 <;> simp_all
  · unfold risk_assessment risk_recommendations improve_diversification_msg
    split_ifs with h1 h2 h3 <;> simp_all
  · norm_num [risk_assessment, risk_level]
  · norm_num [risk_assessment, risk_level]
  · norm_num [risk_assessment, risk_recommendations, risk_level,
      improve_diversification_msg]

/-- C7: `analyze_portfolio` on the empty holdings list returns all-zero
totals and `num_positions = 0`, and for every holdings list whose total
cost is zero (under any draw of simulated prices) the guarded division
yields the sentinel `0` for `gain_loss_percent` instead of an error. -/
theorem claim_C7_portfolio :
    (∀ price : ℕ → ℚ, analyze_portfolio [] price =
      { total_value := 0, total_gain_loss := 0, gain_loss_percent := 0,
        num_positions := 0 }) ∧
    (∀ (holdings : List PortfolioHolding) (price : ℕ → ℚ),
      portfolio_total_cost holdings = 0 →
      (analyze_portfolio holdings price).gain_loss_percent = 0) := by
  constructor
  · intro price
    simp [analyze_portfolio, portfolio_total_value, portfolio_total_cost,
      round2_zero]
  · intro holdings price h
    simp [analyze_portfolio, h, round2_zero]

/-- C7 witness: a nonempty holdings list with zero total cost (two shares
acquired at average cost 0) yields `gain_loss_percent = 0`. -/
theorem claim_C7_portfolio_witness :
    portfolio_total_cost [⟨"AAPL", 2, 0⟩] = 0 ∧
      (analyze_portfolio [⟨"AAPL", 2, 0⟩] (fun _ => 100)).gain_loss_percent = 0 :=
  ⟨by norm_num [portfolio_total_cost],
    claim_C7_portfolio.2 [⟨"AAPL", 2, 0⟩] (fun _ => 100)
      (by norm_num [portfolio_total_cost])⟩

/-- C10: `get_market_news` always returns exactly `max(limit, 0)` items
for every category and every draw of the random choices; in particular a
negative limit yields the empty list, not an error. -/
theorem claim_C10_news_count :
    (∀ (category : String) (limit : ℤ) (pickCat pickSrc : ℕ → ℕ)
        (ts : ℕ → String),
      (get_market_news category limit pickCat pickSrc ts).length =
        (max limit 0).toNat) ∧
    (∀ (pickCat pickSrc : ℕ → ℕ) (ts : ℕ → String),
      get_market_news "stocks" (-3) pickCat pickSrc ts = []) := by
  constructor
  · intro category limit pickCat pickSrc ts
    simp [get_market_news]
    omega
  · intro pickCat pickSrc ts
    simp [get_market_news]

/-- C5: unknown inputs trigger silent fallbacks, never errors.  A currency
code absent from the table (after upper-casing) gets rate `1.0` and the
conversion still returns `round2 (amount / 1 * to_rate)`; an unknown news
category falls back to the pool `["Market"]`, and the call still returns
its full list of items, each headlined with the generic `"Market"` label. -/
theorem claim_C5_fallbacks :
    (∀ c : String, exchange_rates.lookup (upperStr c) = none →
      rate_of c = 1 ∧
      ∀ (x : ℚ) (to_currency : String),
        (currency_converter x c to_currency).value =
          round2 (x / 1 * rate_of to_currency)) ∧
    (∀ category : String, news_categories.lookup category = none →
      news_pool category = ["Market"] ∧
      ∀ (limit : ℤ) (pickCat pickSrc : ℕ → ℕ) (ts : ℕ → String),
        (get_market_news category limit pickCat pickSrc ts).length = limit.toNat ∧
        ∀ item ∈ get_market_news category limit pickCat pickSrc ts,
          ∃ i : ℕ, item.headline =
            "Market Update: Market analysis and insights " ++ toString (i + 1)) := by
  constructor
  · intro c hc
    have hrate : rate_of c = 1 := by simp [rate_of, hc]
    refine ⟨hrate, fun x to_currency => ?_⟩
    simp [currency_converter, hrate]
  · intro category hcat
    have hpool : news_pool category = ["Market"] := by simp [news_pool, hcat]
    refine ⟨hpool, fun limit pickCat pickSrc ts => ⟨by simp [get_market_news], ?_⟩⟩
    intro item hitem
    simp only [get_market_news, hpool, List.mem_map, List.mem_range] at hitem
    obtain ⟨i, _, rfl⟩ := hitem
    exact ⟨i, by simp⟩

/-- C5 witness: the fallbacks evaluated at the unknown currency code
`"XYZ"` and the unknown news category `"weather"`. -/
theorem claim_C5_fallbacks_witness :
    (exchange_rates.lookup (upperStr "XYZ") = none ∧
      news_categories.lookup "weather" = none) ∧
    rate_of "XYZ" = 1 ∧ news_pool "weather" = ["Market"] :=
  ⟨⟨by decide, by decide⟩,
    (claim_C5_fallbacks.1 "XYZ" (by decide)).1,
    (claim_C5_fallbacks.2 "weather" (by decide)).1⟩

/-- C1 counterexample: the query `"add stock news"` contains a stock
keyword (`"stock"`) and a news keyword (`"news"`), yet routes to
`currency`, not `stock`, because it also contains the math keyword
`"add"` and the math set is checked first.  This refutes the claim that
every query containing both a stock and a news keyword routes to stock. -/
theorem claim_C1_counterexample :
    matchesAny stock_keywords (lowerStr "add stock news") = true ∧
    matchesAny news_keywords (lowerStr "add stock news") = true ∧
    classify_route "add stock news" = Route.currency ∧
    classify_route "add stock news" ≠ Route.stock := by decide

/-- C1 (amended): the classifier lower-cases the query and tests substring
membership against the five keyword sets in the fixed priority order
math, stock, portfolio, news, currency — first match decides the route
(math routes to currency), no match routes to the default triage agent;
every query containing a stock keyword and a news keyword and no math
keyword routes to `stock` (e.g. `"stock market news"`); every query
containing `"subtract"` and `"portfolio"` routes to `currency`. -/
theorem claim_C1_classifier :
    (∀ q : String,
      (classify_route q = Route.currency ↔
        matchesAny math_keywords (lowerStr q) = true ∨
        (matchesAny stock_keywords (lowerStr q) = false ∧
         matchesAny portfolio_keywords (lowerStr q) = false ∧
         matchesAny news_keywords (lowerStr q) = false ∧
         matchesAny currency_keywords (lowerStr q) = true)) ∧
      (classify_route q = Route.stock ↔
        matchesAny math_keywords (lowerStr q) = false ∧
        matchesAny stock_keywords (lowerStr q) = true) ∧
      (classify_route q = Route.portfolio ↔
        matchesAny math_keywords (lowerStr q) = false ∧
        matchesAny stock_keywords (lowerStr q) = false ∧
        matchesAny portfolio_keywords (lowerStr q) = true) ∧
      (classify_route q = Route.news ↔
        matchesAny math_keywords (lowerStr q) = false ∧
        matchesAny stock_keywords (lowerStr q) = false ∧
        matchesAny portfolio_keywords (lowerStr q) = false ∧
        matchesAny news_keywords (lowerStr q) = true) ∧
      (classify_route q = Route.triage ↔
        matchesAny math_keywords (lowerStr q) = false ∧
        matchesAny stock_keywords (lowerStr q) = false ∧
        matchesAny portfolio_keywords (lowerStr q) = false ∧
        matchesAny news_keywords (lowerStr q) = false ∧
        matchesAny currency_keywords (lowerStr q) = false)) ∧
    (∀ q : String,
      matchesAny stock_keywords (lowerStr q) = true →
      matchesAny news_keywords (lowerStr q) = true →
      matchesAny math_keywords (lowerStr q) = false →
      classify_route q = Route.stock) ∧
    (∀ q : String,
      strContains (lowerStr q) "subtract" = true →
      strContains (lowerStr q) "portfolio" = true →
      classify_route q = Route.currency) ∧
    classify_route "stock market news" = Route.stock := by
  refine ⟨fun q => ?_, fun q h1 h2 h3 => ?_, fun q h1 h2 => ?_, by decide⟩
  · cases hm : matchesAny math_keywords (lowerStr q) <;>
    cases hs : matchesAny stock_keywords (lowerStr q) <;>
    cases hp : matchesAny portfolio_keywords (lowerStr q) <;>
    cases hn : matchesAny news_keywords (lowerStr q) <;>
    cases hc : matchesAny currency_keywords (lowerStr q) <;>
    simp [classify_route, hm, hs, hp, hn, hc]
  · simp [classify_route, h1, h3]
  · have hmath : matchesAny math_keywords (lowerStr q) = true := by
      unfold matchesAny
      rw [List.any_eq_true]
      exact ⟨"subtract", by decide, h1⟩
    simp [classify_route, hmath]

/-- C1 witness: the two routing consequences evaluated at
`"stock market news"` and `"subtract from my portfolio"`. -/
theorem claim_C1_classifier_witness :
    (matchesAny stock_keywords (lowerStr "stock market news") = true ∧
     matchesAny news_keywords (lowerStr "stock market news") = true ∧
     matchesAny math_keywords (lowerStr "stock market news") = false ∧
     classify_route "stock market news" = Route.stock) ∧
    (strContains (lowerStr "subtract from my portfolio") "subtract" = true ∧
     strContains (lowerStr "subtract from my portfolio") "portfolio" = true ∧
     classify_route "subtract from my portfolio" = Route.currency) :=
  ⟨⟨by decide, by decide, by decide,
      claim_C1_classifier.2.1 "stock market news" (by decide) (by decide) (by decide)⟩,
    ⟨by decide, by decide,
      claim_C1_classifier.2.2.1 "subtract from my portfolio" (by decide) (by decide)⟩⟩

/-- The cube root of 1.5 lies strictly between 1.14465 and 1.14475 (so
the CAGR of the worked example rounds to 14.47). -/
theorem rpow_third_bounds :
    (1.14465 : ℝ) < (1.5 : ℝ) ^ ((1 : ℝ) / 3) ∧
      (1.5 : ℝ) ^ ((1 : ℝ) / 3) < 1.14475 := by
  have hc0 : (0:ℝ) ≤ (1.5 : ℝ) ^ ((1 : ℝ) / 3) := Real.rpow_nonneg (by norm_num) _
  have h3 : ((1.5 : ℝ) ^ ((1 : ℝ) / 3)) ^ (3 : ℕ) = (1.5 : ℝ) := by
    rw [← Real.rpow_natCast ((1.5 : ℝ) ^ ((1 : ℝ) / 3)) 3,
      ← Real.rpow_mul (by norm_num : (0:ℝ) ≤ 1.5)]
    norm_num
  constructor
  · have hcube : (1.14465 : ℝ) ^ (3 : ℕ) < ((1.5 : ℝ) ^ ((1 : ℝ) / 3)) ^ (3 : ℕ) := by
      rw [h3]; norm_num
    exact lt_of_pow_lt_pow_left₀ 3 hc0 hcube
  · have hcube : ((1.5 : ℝ) ^ ((1 : ℝ) / 3)) ^ (3 : ℕ) < (1.14475 : ℝ) ^ (3 : ℕ) := by
      rw [h3]; norm_num
    exact lt_of_pow_lt_pow_left₀ 3 (by norm_num) hcube

/-- The CAGR of the worked example `(10000, 15000, 3)` in closed form. -/
theorem cagr_example_eq :
    calculate_returns_cagr 10000 15000 3 = ((1.5 : ℝ) ^ ((1 : ℝ) / 3) - 1) * 100 := by
  unfold calculate_returns_cagr
  norm_num

/-- The CAGR of the unguarded input `(10000, 15000, -1)`: the exponent is
the integer `-1`, so the power is `(1.5)⁻¹ = 2/3` and the CAGR is
`-100/3`. -/
theorem cagr_neg_period_eq :
    calculate_returns_cagr 10000 15000 (-1) = -100 / 3 := by
  unfold calculate_returns_cagr
  have h1 : ((15000 : ℚ) : ℝ) / ((10000 : ℚ) : ℝ) = 1.5 := by push_cast; norm_num
  have h2 : (1 : ℝ) / ((-1 : ℚ) : ℝ) = ((-1 : ℤ) : ℝ) := by push_cast; norm_num
  rw [h1, h2, Real.rpow_intCast]
  norm_num

/-- C2: `calculate_returns` has no argument guard.  With
`initial_investment = 0` it raises a bare `ZeroDivisionError` (a numeric
fault, not a typed `InvalidArgument` failure), and with
`period_years = -1 ≤ 0` it does not fail at all: it returns a normal
result with `value = -33.33` and the review recommendation. -/
theorem claim_C2_unguarded :
    calculate_returns 0 15000 3 =
      .error (.zeroDivisionError "float division by zero") ∧
    calculate_returns 10000 15000 (-1) =
      .ok { metric := "CAGR", value := -33.33, recommendation := review_msg } := by
  constructor
  · simp [calculate_returns, calculate_returns_exn]
  · have hexn : calculate_returns_exn 10000 15000 (-1) = none := by
      norm_num [calculate_returns_exn]
    have hval : round2R (calculate_returns_cagr 10000 15000 (-1)) = (-33.33 : ℝ) := by
      rw [cagr_neg_period_eq,
        round2R_eq_of (n := -3333) (by norm_num) (by norm_num)]
      norm_num
    have h10 : ¬ (10 : ℝ) < calculate_returns_cagr 10000 15000 (-1) := by
      rw [cagr_neg_period_eq]; norm_num
    have h5 : ¬ (5 : ℝ) < calculate_returns_cagr 10000 15000 (-1) := by
      rw [cagr_neg_period_eq]; norm_num
    unfold calculate_returns
    rw [hexn]
    simp [hval, h10, h5]

/-- C3 counterexample: the claim quantifies over every `final_value`, but
at `calculate_returns 100 (-100) 3` (initial > 0, period > 0, final < 0)
the source raises a `TypeError` instead of returning a result: the base
of `**` is negative and the exponent `1/3` is not an integer, so the
power is a `complex` value and the comparison `cagr > 10` fails. -/
theorem claim_C3_counterexample :
    calculate_returns 100 (-100) 3 =
      .error (.typeError
        "\x27>\x27 not supported between instances of \x27complex\x27 and \x27int\x27") := by
  have hq : (1 : ℚ) / 3 = Rat.divInt 1 3 := by
    rw [Rat.divInt_eq_div]; norm_num
  have hden : ((1 : ℚ) / 3).den ≠ 1 := by rw [hq]; decide
  have hexn : calculate_returns_exn 100 (-100) 3 =
      some (.typeError
        "\x27>\x27 not supported between instances of \x27complex\x27 and \x27int\x27") := by
    unfold calculate_returns_exn
    rw [if_neg (by norm_num), if_neg (by norm_num),
      if_pos ⟨by norm_num, hden⟩]
  unfold calculate_returns
  rw [hexn]

/-- C3 (amended): for every `initial_investment > 0`,
`final_value ≥ 0` and `period_years > 0`, `calculate_returns` returns
normally with `totalReturnPercent = (final - initial)/initial * 100` and
`value = round2(CAGR)` where
`CAGR = ((final/initial)^(1/period) - 1) * 100`; the recommendation is
"excellent" iff `CAGR > 10`, "good" iff `5 < CAGR ≤ 10` and "review
strategy" otherwise; and the worked example `(10000, 15000, 3)` yields
`totalReturnPercent = 50` and a rounded CAGR of exactly `14.47` (hence
within `±0.01` of the documented value). -/
theorem claim_C3_returns :
    (∀ initial_investment final_value period_years : ℚ,
      0 < initial_investment → 0 ≤ final_value → 0 < period_years →
      calculate_returns_total_return_percent initial_investment final_value =
        (final_value - initial_investment) / initial_investment * 100 ∧
      ∃ r : FinancialAnalysisR,
        calculate_returns initial_investment final_value period_years = .ok r ∧
        r.value = round2R
          (calculate_returns_cagr initial_investment final_value period_years) ∧
        (r.recommendation = excellent_msg ↔
          10 < calculate_returns_cagr initial_investment final_value period_years) ∧
        (r.recommendation = good_msg ↔
          5 < calculate_returns_cagr initial_investment final_value period_years ∧
          calculate_returns_cagr initial_investment final_value period_years ≤ 10) ∧
        (r.recommendation = review_msg ↔
          calculate_returns_cagr initial_investment final_value period_years ≤ 5)) ∧
    calculate_returns_total_return_percent 10000 15000 = 50 ∧
    (∃ r : FinancialAnalysisR, calculate_returns 10000 15000 3 = .ok r ∧
      r.value = 14.47 ∧ |r.value - (14.47 : ℝ)| ≤ 0.01) := by
  have hgen : ∀ initial_investment final_value period_years : ℚ,
      0 < initial_investment → 0 ≤ final_value → 0 < period_years →
      calculate_returns_total_return_percent initial_investment final_value =
        (final_value - initial_investment) / initial_investment * 100 ∧
      ∃ r : FinancialAnalysisR,
        calculate_returns initial_investment final_value period_years = .ok r ∧
        r.value = round2R
          (calculate_returns_cagr initial_investment final_value period_years) ∧
        (r.recommendation = excellent_msg ↔
          10 < calculate_returns_cagr initial_investment final_value period_years) ∧
        (r.recommendation = good_msg ↔
          5 < calculate_returns_cagr initial_investment final_value period_years ∧
          calculate_returns_cagr initial_investment final_value period_years ≤ 10) ∧
        (r.recommendation = review_msg ↔
          calculate_returns_cagr initial_investment final_value period_years ≤ 5) := by
    intro i f p hi hf hp
    refine ⟨rfl, ?_⟩
    have hexn : calculate_returns_exn i f p = none := by
      unfold calculate_returns_exn
      rw [if_neg (ne_of_gt hi), if_neg (ne_of_gt hp), if_neg ?_]
      rintro ⟨hneg, -⟩
      exact absurd hneg (not_lt.mpr (div_nonneg hf hi.le))
    refine ⟨{ metric := "CAGR",
              value := round2R (calculate_returns_cagr i f p),
              recommendation :=
                if 10 < calculate_returns_cagr i f p then excellent_msg
                else if 5 < calculate_returns_cagr i f p then good_msg
                else review_msg },
            ?_, rfl, ?_, ?_, ?_⟩
    · unfold calculate_returns
      rw [hexn]
    · -- excellent ↔ 10 < cagr
      by_cases h10 : (10:ℝ) < calculate_returns_cagr i f p
      · rw [if_pos h10]
        exact iff_of_true rfl h10
      · rw [if_neg h10]
        by_cases h5 : (5:ℝ) < calculate_returns_cagr i f p
        · rw [if_pos h5]
          exact iff_of_false (by simp [good_msg, excellent_msg]) h10
        · rw [if_neg h5]
          exact iff_of_false (by simp [review_msg, excellent_msg]) h10
    · -- good ↔ 5 < cagr ≤ 10
      by_cases h10 : (10:ℝ) < calculate_returns_cagr i f p
      · rw [if_pos h10]
        exact iff_of_false (by simp [excellent_msg, good_msg])
          (fun h => absurd h10 (not_lt.mpr h.2))
      · rw [if_neg h10]
        by_cases h5 : (5:ℝ) < calculate_returns_cagr i f p
        · rw [if_pos h5]
          exact iff_of_true rfl ⟨h5, not_lt.mp h10⟩
        · rw [if_neg h5]
          exact iff_of_false (by simp [review_msg, good_msg])
            (fun h => absurd h.1 h5)
    · -- review ↔ cagr ≤ 5
      by_cases h10 : (10:ℝ) < calculate_returns_cagr i f p
      · rw [if_pos h10]
        exact iff_of_false (by simp [excellent_msg, review_msg])
          (fun h => by linarith)
      · rw [if_neg h10]
        by_cases h5 : (5:ℝ) < calculate_returns_cagr i f p
        · rw [if_pos h5]
          exact iff_of_false (by simp [good_msg, review_msg])
            (fun h => by linarith)
        · rw [if_neg h5]
          exact iff_of_true rfl (not_lt.mp h5)
  obtain ⟨hlow, hhigh⟩ := rpow_third_bounds
  have hval : round2R (calculate_returns_cagr 10000 15000 3) = 14.47 := by
    rw [cagr_example_eq,
      round2R_eq_of (n := 1447) (by push_cast; nlinarith) (by push_cast; nlinarith)]
    norm_num
  refine ⟨hgen, by norm_num [calculate_returns_total_return_percent], ?_⟩
  obtain ⟨-, r, hr, hrv, -, -, -⟩ :=
    hgen 10000 15000 3 (by norm_num) (by norm_num) (by norm_num)
  refine ⟨r, hr, ?_, ?_⟩
  · rw [hrv, hval]
  · rw [hrv, hval]
    norm_num

/-- C3 witness: the general statement instantiated at the worked example
`(10000, 15000, 3)`, with all three hypotheses discharged numerically. -/
theorem claim_C3_returns_witness :
    ((0:ℚ) < 10000 ∧ (0:ℚ) ≤ 15000 ∧ (0:ℚ) < 3) ∧
    (calculate_returns_total_return_percent 10000 15000 =
        (15000 - 10000) / 10000 * 100 ∧
      ∃ r : FinancialAnalysisR,
        calculate_returns 10000 15000 3 = .ok r ∧
        r.value = round2R (calculate_returns_cagr 10000 15000 3) ∧
        (r.recommendation = excellent_msg ↔
          10 < calculate_returns_cagr 10000 15000 3) ∧
        (r.recommendation = good_msg ↔
          5 < calculate_returns_cagr 10000 15000 3 ∧
          calculate_returns_cagr 10000 15000 3 ≤ 10) ∧
        (r.recommendation = review_msg ↔
          calculate_returns_cagr 10000 15000 3 ≤ 5)) :=
  ⟨⟨by norm_num, by norm_num, by norm_num⟩,
    claim_C3_returns.1 10000 15000 3 (by norm_num) (by norm_num) (by norm_num)⟩

/-- C8 counterexample: `get_stock_price` performs no symbol validation,
so on the empty symbol — where the claim demands an `InvalidArgument`
failure — it succeeds and returns a normal quote (here under the draw
`base_price = 100`, `change = 5`). -/
theorem claim_C8_counterexample :
    get_stock_price "" 100 5 "t0" =
      .ok { symbol := "", price := 100, change := 5, change_percent := 5,
            timestamp := "t0" } := by
  have h100 : round2 100 = 100 := by
    rw [round2_eq_of (n := 10000) (by norm_num) (by norm_num)]
    norm_num
  have h5 : round2 5 = 5 := by
    rw [round2_eq_of (n := 500) (by norm_num) (by norm_num)]
    norm_num
  have harg : (5:ℚ) / 100 * 100 = 5 := by norm_num
  unfold get_stock_price
  rw [if_neg (by norm_num : ¬(100:ℚ) = 0)]
  simp [upperStr, harg, h100, h5]

/-- C8 (amended): `get_stock_price` never fails.  For every symbol —
the empty string included — and every admissible draw of the simulated
base price (any value in [50, 500] is nonzero, which is all the body
needs), the call succeeds and returns a quote carrying the upper-cased
symbol and the rounded drawn price; the source contains no symbol check
and no failure condition. -/
theorem claim_C8_no_failure :
    ∀ (symbol : String) (base_price change : ℚ) (now : String),
      50 ≤ base_price → base_price ≤ 500 →
      ∃ q : StockPrice, get_stock_price symbol base_price change now = .ok q ∧
        q.symbol = upperStr symbol ∧ q.price = round2 base_price := by
  intro s bp ch now h1 _h2
  have hbp : ¬ bp = 0 := by intro h; rw [h] at h1; norm_num at h1
  refine ⟨{ symbol := upperStr s, price := round2 bp, change := round2 ch,
            change_percent := round2 (ch / bp * 100), timestamp := now },
          ?_, rfl, rfl⟩
  unfold get_stock_price
  rw [if_neg hbp]

/-- C8 witness: the no-failure statement instantiated at the empty symbol
with the draw `(100, 5)`. -/
theorem claim_C8_no_failure_witness :
    ((50:ℚ) ≤ 100 ∧ (100:ℚ) ≤ 500) ∧
    ∃ q : StockPrice, get_stock_price "" 100 5 "t0" = .ok q ∧
      q.symbol = upperStr "" ∧ q.price = round2 100 :=
  ⟨⟨by norm_num, by norm_num⟩,
    claim_C8_no_failure "" 100 5 "t0" (by norm_num) (by norm_num)⟩

/-- C9: with no credential configured (`OPENAI_API_KEY` unset or empty,
`GOOGLE_API_KEY` arbitrary), `run_finance_agent` does not return the
specific configuration-error string of the source (line 421): the
`elif openai_key:` branch of `get_api_key` (line 378) evaluates an
undefined name, so CPython raises `NameError`, which the `except`
handler maps to the generic unknown-error string instead.  The required behaviour of the claim therefore fails on the code (the configuration-error
message is unreachable), though the call still returns a string rather
than crashing. -/
theorem claim_C9_config_error_bug :
    ∀ (google_api_key : Option String) (query : String)
      (llm : Route → String → Except PyExn String),
      get_api_key ⟨none, google_api_key⟩ =
        .error (.nameError "name \x27openai_key\x27 is not defined") ∧
      run_finance_agent ⟨none, google_api_key⟩ query llm =
        "⚠️ Error: name \x27openai_key\x27 is not defined" ∧
      run_finance_agent ⟨some "", google_api_key⟩ query llm =
        "⚠️ Error: name \x27openai_key\x27 is not defined" ∧
      run_finance_agent ⟨none, google_api_key⟩ query llm ≠ no_api_key_msg := by
  intro g q llm
  refine ⟨rfl, rfl, rfl, ?_⟩
  rw [show run_finance_agent ⟨none, g⟩ q llm =
    "⚠️ Error: name \x27openai_key\x27 is not defined" from rfl]
  decide

end FinanceAgent
